import Mathlib

/-!
Shallow embedding of the `isodate` repository's core modules
(`isodate/duration.py` and `isodate/isotime.py`) and verification of the
specification's claims about them.

Conventions of the embedding:
* Python `Decimal` values are modelled by `ℚ` (exact arbitrary-precision
  decimal arithmetic; all decimals are rationals).
* Python `datetime.timedelta` is normalised internally by CPython to a
  linear count of microseconds; it is modelled by that count.
* Python `datetime.date` is modelled by its `(year, month, day)` fields;
  `date.replace` is modelled as a field update (stdlib range validation of
  the external calendar type is outside the modelled core).
* Python `int(...)` applied to a `Decimal` truncates toward zero, which is
  `Int.div` on the numerator/denominator.  Python `%` on `int` with a
  positive modulus is `Int.emod`.
-/

namespace Isodate

/-- Python `datetime.timedelta`, modelled by its total signed length in
microseconds (CPython normalises `(days, seconds, microseconds)` to exactly
this linear value). -/
structure Timedelta where
  usec : Int
deriving DecidableEq, Repr

instance : Sub Timedelta := ⟨fun a b => ⟨a.usec - b.usec⟩⟩

instance : Neg Timedelta := ⟨fun a => ⟨-a.usec⟩⟩

/-- The `.days` attribute of a normalised Python timedelta: floor division of
the total length by the number of microseconds in a day. -/
def Timedelta.days (t : Timedelta) : Int :=
  Int.fdiv t.usec 86400000000

/-- The `datetime.timedelta(days, seconds, microseconds, milliseconds, minutes,
hours, weeks)` constructor, for integer arguments. -/
def timedelta (days seconds microseconds milliseconds minutes hours weeks : Int) : Timedelta :=
  ⟨microseconds + 1000 * milliseconds
    + 1000000 * (seconds + 60 * minutes + 3600 * hours)
    + 86400000000 * (days + 7 * weeks)⟩

/-- Python `int(...)` on a `Decimal` (modelled as `ℚ`): truncation toward
zero.  `Int.div` rounds toward zero and `q.den` is positive. -/
def pyInt (q : ℚ) : Int :=
  Int.tdiv q.num q.den

/-- Python `datetime.date` (a calendar point), by its three fields. -/
structure Date where
  year : Int
  month : Int
  day : Int
deriving DecidableEq, Repr

/-- Number of days before January 1st of `year` in the proleptic Gregorian
calendar (CPython `datetime._days_before_year`). -/
def days_before_year (y : Int) : Int :=
  365 * (y - 1) + Int.fdiv (y - 1) 4 - Int.fdiv (y - 1) 100 + Int.fdiv (y - 1) 400

/-- Gregorian leap-year test used by the ordinal conversions. -/
def isLeap (y : Int) : Bool :=
  (Int.emod y 4 == 0 && Int.emod y 100 != 0) || Int.emod y 400 == 0

/-- Number of days in year `y` strictly before month `m` (for `1 ≤ m ≤ 12`). -/
def days_before_month (y m : Int) : Int :=
  (if 1 < m then 31 else 0) + (if 2 < m then (if isLeap y then 29 else 28) else 0)
  + (if 3 < m then 31 else 0) + (if 4 < m then 30 else 0) + (if 5 < m then 31 else 0)
  + (if 6 < m then 30 else 0) + (if 7 < m then 31 else 0) + (if 8 < m then 31 else 0)
  + (if 9 < m then 30 else 0) + (if 10 < m then 31 else 0) + (if 11 < m then 30 else 0)

/-- Python `date.toordinal()`: proleptic Gregorian ordinal, with
`0001-01-01` mapped to `1`. -/
def Date.toOrdinal (d : Date) : Int :=
  days_before_year d.year + days_before_month d.year d.month + d.day

/-- Python `date.fromordinal(n)`: inverse of `Date.toOrdinal`, computed by the
standard civil-from-days algorithm on 400-year eras anchored at `0000-03-01`. -/
def Date.ofOrdinal (n : Int) : Date :=
  let z := n + 305
  let era := Int.fdiv z 146097
  let doe := z - era * 146097
  let yoe := Int.fdiv (doe - Int.fdiv doe 1460 + Int.fdiv doe 36524 - Int.fdiv doe 146096) 365
  let y := yoe + era * 400
  let doy := doe - (365 * yoe + Int.fdiv yoe 4 - Int.fdiv yoe 100)
  let mp := Int.fdiv (5 * doy + 2) 153
  let day := doy - Int.fdiv (153 * mp + 2) 5 + 1
  let m := mp + (if mp < 10 then 3 else -9)
  ⟨y + (if m ≤ 2 then 1 else 0), m, day⟩

/-- Python `date - timedelta`: CPython subtracts only the timedelta's `.days`
component from the date's ordinal. -/
def dateSubTimedelta (d : Date) (t : Timedelta) : Date :=
  Date.ofOrdinal (d.toOrdinal - t.days)

/-- Embedding of `fquotmod(val, low, high)` from `isodate/duration.py`:
`a, b = val - low, high - low`; `div = (a / b).to_integral(ROUND_FLOOR)`;
`mod = a - div * b`; `mod += low`; returns `(int(div), mod)`. -/
def fquotmod (val : ℚ) (low high : Int) : Int × ℚ :=
  let a : ℚ := val - (low : ℚ)
  let b : ℚ := (high : ℚ) - (low : ℚ)
  let div : Int := Rat.floor (a / b)
  let mod : ℚ := a - (div : ℚ) * b + (low : ℚ)
  (div, mod)

/-- Embedding of `max_days_in_month(year, month)` from `isodate/duration.py`. -/
def max_days_in_month (year month : Int) : Int :=
  if month = 1 ∨ month = 3 ∨ month = 5 ∨ month = 7 ∨ month = 8 ∨ month = 10 ∨ month = 12 then
    31
  else if month = 4 ∨ month = 6 ∨ month = 9 ∨ month = 11 then
    30
  else if Int.emod year 400 = 0 ∨ (Int.emod year 100 ≠ 0 ∧ Int.emod year 4 = 0) then
    29
  else
    28

/-- The `Duration` class of `isodate/duration.py`: decimal `years` and
`months` plus an embedded exact `timedelta`. -/
structure Duration where
  years : ℚ
  months : ℚ
  tdelta : Timedelta
deriving DecidableEq, Repr

/-- `Duration.__init__(days, seconds, microseconds, milliseconds, minutes,
hours, weeks, months, years)` for integer timedelta arguments. -/
def Duration.make (days seconds microseconds milliseconds minutes hours weeks : Int)
    (months years : ℚ) : Duration :=
  ⟨years, months, timedelta days seconds microseconds milliseconds minutes hours weeks⟩

/-- The `float(...).is_integer()` guard of `Duration.__add__` and
`Duration.__rsub__`, on the exact model: a rational is integral iff its
reduced denominator is `1`. -/
def Rat.isIntegral (q : ℚ) : Prop :=
  q.den = 1

instance (q : ℚ) : Decidable (Rat.isIntegral q) :=
  inferInstanceAs (Decidable (q.den = 1))

/-- The possible right operands of `Duration.__add__`; `other` stands for any
value that is neither a `Duration`, a `date`/`datetime`, nor a `timedelta`. -/
inductive AddOperand where
  | dur (d : Duration)
  | pdate (p : Date)
  | delta (t : Timedelta)
  | other
deriving DecidableEq, Repr

/-- The possible outcomes of `Duration.__add__`: a `Duration`, a calendar
point, the `NotImplemented` sentinel, or Python `None` (the value of the
function's final `return None`). -/
inductive AddResult where
  | dur (d : Duration)
  | pdate (p : Date)
  | notImplemented
  | pyNone
deriving DecidableEq, Repr

/-- Embedding of `Duration.__add__` from `isodate/duration.py`, lines 132-160,
branch by branch:
* `Duration`: `Duration(years=other.years - self.years, months=self.months -
  other.months)` with `tdelta = other.tdelta - self.tdelta`;
* `date`/`datetime`: `NotImplemented` unless `years` and `months` are
  integral, otherwise the month/year carry via `fquotmod(_, 0, 12)`, the
  extra `+ 1` on the year, the `maxdays - 1` day clamp, `other.replace(...)`
  and finally `newdt - self.tdelta`;
* `timedelta`: same calendar part, `tdelta = other - self.tdelta`;
* anything else: `return None`. -/
def Duration.add (self : Duration) (o : AddOperand) : AddResult :=
  match o with
  | .dur other =>
    .dur ⟨other.years - self.years, self.months - other.months, other.tdelta - self.tdelta⟩
  | .pdate other =>
    if ¬(Rat.isIntegral self.years ∧ Rat.isIntegral self.months) then
      .notImplemented
    else
      let newmonth : ℚ := (other.month : ℚ) + self.months
      let cm := fquotmod newmonth 0 12
      let newyear : ℚ := (other.year : ℚ) + self.years + (cm.1 : ℚ) + 1
      let maxdays := max_days_in_month (pyInt newyear) (pyInt cm.2)
      let newday := if other.day < maxdays then other.day else maxdays - 1
      let newdt : Date := ⟨pyInt newyear, pyInt cm.2, newday⟩
      .pdate (dateSubTimedelta newdt self.tdelta)
  | .delta other =>
    .dur ⟨self.years, self.months, other - self.tdelta⟩
  | .other => .pyNone

/-- Embedding of the `Duration` branch of `Duration.__sub__`: pairwise
subtraction of calendar parts and exact parts. -/
def Duration.sub (self other : Duration) : Duration :=
  ⟨self.years - other.years, self.months - other.months, self.tdelta - other.tdelta⟩

/-- The possible right operands of `Duration.__rsub__` (`other - self`). -/
inductive RsubOperand where
  | delta (t : Timedelta)
  | pdate (p : Date)
  | other
deriving DecidableEq, Repr

/-- The possible outcomes of `Duration.__rsub__`: a `Duration`, a calendar
point, `NotImplemented`, or an uncaught `ValueError` carrying its message. -/
inductive RsubResult where
  | dur (d : Duration)
  | pdate (p : Date)
  | notImplemented
  | valueError (message : String)
deriving DecidableEq, Repr

/-- Embedding of `Duration.__rsub__` from `isodate/duration.py`, lines
195-234: a `timedelta` left operand is wrapped in an empty `Duration` and
subtracted via `Duration.__sub__`; a date-like left operand first hits the
integrality guard, which `raise`s `ValueError` (only `AttributeError` is
caught, so it propagates), then the backward carry via `fquotmod(_, 1, 13)`,
the `maxdays` clamp, `other.replace(...)` and `newdt - self.tdelta`; any
other operand falls through to `NotImplemented`. -/
def Duration.rsub (self : Duration) (o : RsubOperand) : RsubResult :=
  match o with
  | .delta other =>
    .dur (Duration.sub ⟨0, 0, other⟩ self)
  | .pdate other =>
    if ¬(Rat.isIntegral self.years ∧ Rat.isIntegral self.months) then
      .valueError "fractional years or months not supported for date calculations"
    else
      let newmonth : ℚ := (other.month : ℚ) - self.months
      let cm := fquotmod newmonth 1 13
      let newyear : ℚ := (other.year : ℚ) - self.years + (cm.1 : ℚ)
      let maxdays := max_days_in_month (pyInt newyear) (pyInt cm.2)
      let newday := if maxdays < other.day then maxdays else other.day
      let newdt : Date := ⟨pyInt newyear, pyInt cm.2, newday⟩
      .pdate (dateSubTimedelta newdt self.tdelta)
  | .other => .notImplemented

/-- Embedding of the `Duration`-vs-`Duration` branch of `Duration.__eq__`
from `isodate/duration.py`, lines 242-247: returns `True` exactly when
`self.years * 12 + self.months == other.years * 12 + other.months` and the
timedelta parts agree. -/
def Duration.eq (self other : Duration) : Bool :=
  if self.years * 12 + self.months = other.years * 12 + other.months
      ∧ self.tdelta = other.tdelta then
    true
  else
    false

/-! Embedding of `isodate/isotime.py`. -/

/-- A compiled regular expression (`re.Pattern`), modelled by the pattern text
it was compiled from; the `.pattern` attribute recovers that text. -/
structure CompiledRegex where
  pattern : String
deriving DecidableEq, Repr

/-- Modelled from the spec: the timezone designator suffix grammar shared by
all five time grammars (`isodate.isotzinfo.TZ_REGEX`, whose module is not
under `src/`): no designator means local time, `Z` means UTC, and signed
`hh`, `hhmm` or `hh:mm` offsets are accepted. -/
def TZ_REGEX : String :=
  "(?P<tzname>(Z|(?P<tzsign>[+-])(?P<tzhour>[0-9]{2})(:?(?P<tzmin>[0-9]{2}))?)?)"

/-- The module-level `TIME_REGEX_CACHE` of `isodate/isotime.py` at import
time: an empty list. -/
def TIME_REGEX_CACHE : List CompiledRegex := []

/-- The inner `add_re` helper of `build_time_regexps`: compiles
`\A + regex_text + TZ_REGEX + \Z` and appends it to the cache list. -/
def add_re (cache : List CompiledRegex) (regex_text : String) : List CompiledRegex :=
  cache ++ [⟨"\\A" ++ regex_text ++ TZ_REGEX ++ "\\Z"⟩]

/-- Embedding of `build_time_regexps` from `isodate/isotime.py`, lines 22-54,
as a function of the module-level cache: if the cache is already populated it
is cleared, then the five grammars (extended complete, basic complete with
its one-digit minute field, extended reduced, basic reduced, basic hour-only)
are appended in order.  The function's final statement returns
`[r.pattern for r in TIME_REGEX_CACHE]` — the list of pattern *strings*, not
the compiled patterns.  The result is the pair (new cache, returned value). -/
def build_time_regexps (cache : List CompiledRegex) : List CompiledRegex × List String :=
  let cache := if cache = [] then cache else []
  let cache := add_re cache
    "T?(?P<hour>[0-9]{2})(?P<minute>[0-9]{2}):(?P<second>[0-9]{2}([,.][0-9]+)?)"
  let cache := add_re cache
    "T?(?P<hour>[0-9]{2})(?P<minute>[0-9]{1})(?P<second>[0-9]{2}([,.][0-9]+)?)"
  let cache := add_re cache
    "T?(?P<hour>[0-9]{2}):(?P<minute>[0-9]{2}([,.][0-9]+)?)"
  let cache := add_re cache
    "T?(?P<hour>[0-9]{2})(?P<minute>[0-9]{2}([,.][0-9]+)?)"
  let cache := add_re cache
    "T?(?P<hour>[0-9]{2}([,.][0-9]+)?)"
  (cache, cache.map CompiledRegex.pattern)

/-- The observable outcome of `parse_time`: a parsed time value, an
`ISO8601Error` with its message, or an uncaught `AttributeError` naming the
type and the missing attribute. -/
inductive TimeResult where
  | ok (hour minute second microsecond : Int) (tzname : String)
  | iso8601Error (message : String)
  | attributeError (typeName attr : String)
deriving DecidableEq, Repr

/-- Embedding of `parse_time` from `isodate/isotime.py`, lines 57-128, as a
function of the input string and the module-level cache.  `isotimes` is the
value returned by `build_time_regexps`, which is the list of pattern
*strings* (its final statement projects `.pattern` from every cache entry).
The loop body's first operation, `pattern.match(timestring)`, is an attribute
lookup of `match` on a `str` object; `str` has no `match` attribute, so the
first iteration raises `AttributeError`.  Only when the pattern list is empty
does control reach the final `raise ISO8601Error("Unrecognised ISO 8601 time
format: %r" % timestring)`. -/
def parse_time (timestring : String) (cache : List CompiledRegex) :
    List CompiledRegex × TimeResult :=
  let built := build_time_regexps cache
  match built.2 with
  | [] =>
    (built.1, .iso8601Error ("Unrecognised ISO 8601 time format: \x27" ++ timestring ++ "\x27"))
  | _pattern :: _rest =>
    (built.1, .attributeError "str" "match")

/-- Specification's description of the calendar-point addition algorithm
(spec §4.3, claim C4), written from the spec's words for comparison with the
source embedding `Duration.add`: bounded-quotient carry over `[0, 12)`,
`new_year = point.year + duration.years + carry + 1`, day kept when strictly
below `max_days_in_month` and otherwise set to `max_days_in_month - 1`, then
the exact part subtracted from the rebuilt point. -/
def addDateSpec (d : Duration) (p : Date) : Date :=
  let cm := fquotmod ((p.month : ℚ) + d.months) 0 12
  let new_year : ℚ := (p.year : ℚ) + d.years + (cm.1 : ℚ) + 1
  let maxdays := max_days_in_month (pyInt new_year) (pyInt cm.2)
  let day := if p.day < maxdays then p.day else maxdays - 1
  dateSubTimedelta ⟨pyInt new_year, pyInt cm.2, day⟩ d.tdelta

/-! Theorems settling the claims. -/

/-- Bridge between the executable `Rat.floor` used in the embedding and
Mathlib's `Int.floor` on `ℚ`. -/
theorem rat_floor_eq_int_floor (q : ℚ) : Rat.floor q = ⌊q⌋ := by
  rw [Rat.floor_def', Rat.floor_def]

/-- Claim C7: for every rational value `v` and integer bounds `low < high`,
`fquotmod v low high` returns `(div, mod)` with `low ≤ mod < high`,
`v - low = div * (high - low) + (mod - low)`, and `div` the floor (toward
negative infinity) of `(v - low) / (high - low)`. -/
theorem fquotmod_bounded_quotient (v : ℚ) (low high : Int) (hlt : low < high) :
    (low : ℚ) ≤ (fquotmod v low high).2 ∧ (fquotmod v low high).2 < (high : ℚ) ∧
      v - (low : ℚ) = ((fquotmod v low high).1 : ℚ) * ((high : ℚ) - (low : ℚ))
        + ((fquotmod v low high).2 - (low : ℚ)) ∧
      (fquotmod v low high).1 = ⌊(v - (low : ℚ)) / ((high : ℚ) - (low : ℚ))⌋ := by
  have hb : (0 : ℚ) < (high : ℚ) - (low : ℚ) := by
    have h' : (low : ℚ) < (high : ℚ) := by exact_mod_cast hlt
    linarith
  have hfq : fquotmod v low high
      = (⌊(v - (low : ℚ)) / ((high : ℚ) - (low : ℚ))⌋,
          (v - (low : ℚ))
            - (⌊(v - (low : ℚ)) / ((high : ℚ) - (low : ℚ))⌋ : ℚ) * ((high : ℚ) - (low : ℚ))
            + (low : ℚ)) := by
    simp [fquotmod, rat_floor_eq_int_floor]
  set a : ℚ := v - (low : ℚ) with ha
  set b : ℚ := (high : ℚ) - (low : ℚ) with hb2
  rw [hfq]
  have h1 : (⌊a / b⌋ : ℚ) * b ≤ a := by
    calc (⌊a / b⌋ : ℚ) * b ≤ (a / b) * b :=
          mul_le_mul_of_nonneg_right (Int.floor_le (a / b)) (le_of_lt hb)
      _ = a := div_mul_cancel₀ a (ne_of_gt hb)
  have h2 : a < (⌊a / b⌋ : ℚ) * b + b := by
    have h0 : a < ((⌊a / b⌋ : ℚ) + 1) * b := by
      calc a = (a / b) * b := (div_mul_cancel₀ a (ne_of_gt hb)).symm
        _ < ((⌊a / b⌋ : ℚ) + 1) * b :=
            mul_lt_mul_of_pos_right (Int.lt_floor_add_one (a / b)) hb
    rw [add_mul, one_mul] at h0
    exact h0
  refine ⟨by linarith, by linarith [hb2.symm ▸ h2], by ring, rfl⟩

/-- Witness for claim C7 at `v = 7/2`, `low = 0`, `high = 12`. -/
theorem fquotmod_bounded_quotient_witness :
    (0 : Int) < 12 ∧
      (((0 : Int) : ℚ) ≤ (fquotmod (7/2) 0 12).2 ∧ (fquotmod (7/2) 0 12).2 < ((12 : Int) : ℚ) ∧
        (7/2 : ℚ) - ((0 : Int) : ℚ)
          = ((fquotmod (7/2) 0 12).1 : ℚ) * (((12 : Int) : ℚ) - ((0 : Int) : ℚ))
            + ((fquotmod (7/2) 0 12).2 - ((0 : Int) : ℚ)) ∧
        (fquotmod (7/2) 0 12).1
          = ⌊((7/2 : ℚ) - ((0 : Int) : ℚ)) / (((12 : Int) : ℚ) - ((0 : Int) : ℚ))⌋) :=
  ⟨by decide, fquotmod_bounded_quotient (7/2) 0 12 (by decide)⟩

/-- Claim C6: adding two Durations follows the asymmetric composition rule of
the source: `years = d2.years - d1.years`, `months = d1.months - d2.months`,
`tdelta = d2.tdelta - d1.tdelta`. -/
theorem duration_add_duration_asymmetric (d1 d2 : Duration) :
    Duration.add d1 (.dur d2)
      = .dur ⟨d2.years - d1.years, d1.months - d2.months, d2.tdelta - d1.tdelta⟩ :=
  rfl

/-- Claim C5, counterexample: `Duration(years=1) == Duration(months=12)` does
not evaluate to `false` in the source; the claim as stated is refuted. -/
theorem duration_eq_normalizes_counterexample :
    ¬(Duration.eq (Duration.make 0 0 0 0 0 0 0 0 1) (Duration.make 0 0 0 0 0 0 0 12 0)
        = false) := by
  have h : Duration.eq (Duration.make 0 0 0 0 0 0 0 0 1) (Duration.make 0 0 0 0 0 0 0 12 0)
      = true := by with_unfolding_all rfl
  simp [h]

/-- Claim C5, amended: `Duration(years=1) == Duration(months=12)` evaluates
to `true`, because Duration equality normalizes years into months by
comparing `years * 12 + months` (together with the exact parts). -/
theorem duration_eq_normalizes_years_to_months :
    Duration.eq (Duration.make 0 0 0 0 0 0 0 0 1) (Duration.make 0 0 0 0 0 0 0 12 0) = true ∧
    ∀ a b : Duration,
      Duration.eq a b
        = (decide (a.years * 12 + a.months = b.years * 12 + b.months)
            && decide (a.tdelta = b.tdelta)) := by
  refine ⟨by with_unfolding_all rfl, ?_⟩
  intro a b
  rcases Classical.em (a.years * 12 + a.months = b.years * 12 + b.months) with h1 | h1 <;>
    rcases Classical.em (a.tdelta = b.tdelta) with h2 | h2 <;>
      simp [Duration.eq, h1, h2]

/-- Claim C3: the source yields `2001-02-27` for `Duration(months=1) +
date(2000, 1, 31)` and `2002-02-27` for `Duration(months=1) +
date(2001, 1, 31)` — not the claimed `2000-02-29` and `2001-02-28` — because
`__add__` adds an extra `+ 1` to the year and clamps the day to
`max_days_in_month - 1`. -/
theorem add_one_month_to_january_31_clamp_bug :
    Duration.add (Duration.make 0 0 0 0 0 0 0 1 0) (.pdate ⟨2000, 1, 31⟩)
        = .pdate ⟨2001, 2, 27⟩ ∧
    Duration.add (Duration.make 0 0 0 0 0 0 0 1 0) (.pdate ⟨2001, 1, 31⟩)
        = .pdate ⟨2002, 2, 27⟩ :=
  ⟨by with_unfolding_all rfl, by with_unfolding_all rfl⟩

/-- Claim C4: for every Duration with integral years and months and every
calendar point, forward addition computes exactly the algorithm the spec
describes (bounded-quotient carry over `[0, 12)`, `new_year = point.year +
years + carry + 1`, the strict `<` day clamp to `max_days_in_month - 1`, then
subtraction of the exact part from the rebuilt point). -/
theorem add_date_follows_spec_algorithm (d : Duration) (p : Date)
    (hy : Rat.isIntegral d.years) (hm : Rat.isIntegral d.months) :
    Duration.add d (.pdate p) = .pdate (addDateSpec d p) := by
  simp [Duration.add, addDateSpec, hy, hm]

/-- Witness for claim C4 at `Duration(months=1)` and `date(2000, 1, 31)`. -/
theorem add_date_follows_spec_algorithm_witness :
    Rat.isIntegral (Duration.make 0 0 0 0 0 0 0 1 0).years ∧
    Rat.isIntegral (Duration.make 0 0 0 0 0 0 0 1 0).months ∧
    Duration.add (Duration.make 0 0 0 0 0 0 0 1 0) (.pdate ⟨2000, 1, 31⟩)
      = .pdate (addDateSpec (Duration.make 0 0 0 0 0 0 0 1 0) ⟨2000, 1, 31⟩) :=
  ⟨by with_unfolding_all decide, by with_unfolding_all decide,
    add_date_follows_spec_algorithm (Duration.make 0 0 0 0 0 0 0 1 0) ⟨2000, 1, 31⟩
      (by with_unfolding_all decide) (by with_unfolding_all decide)⟩

/-- Claim C8: when years or months are fractional, adding a Duration to a
calendar point returns the soft `NotImplemented` sentinel, while reverse
subtraction of the same Duration from a calendar point raises a hard
`ValueError` — two distinct observable outcomes for the same precondition
violation. -/
theorem fractional_calendar_add_vs_rsub (d : Duration) (p : Date)
    (h : ¬(Rat.isIntegral d.years ∧ Rat.isIntegral d.months)) :
    Duration.add d (.pdate p) = .notImplemented ∧
    Duration.rsub d (.pdate p)
      = .valueError "fractional years or months not supported for date calculations" := by
  constructor
  · simp [Duration.add, h]
  · simp [Duration.rsub, h]

/-- Witness for claim C8 at `Duration(months=1/2)` and `date(2000, 1, 1)`. -/
theorem fractional_calendar_add_vs_rsub_witness :
    (¬(Rat.isIntegral (Duration.make 0 0 0 0 0 0 0 (1/2) 0).years
        ∧ Rat.isIntegral (Duration.make 0 0 0 0 0 0 0 (1/2) 0).months)) ∧
    (Duration.add (Duration.make 0 0 0 0 0 0 0 (1/2) 0) (.pdate ⟨2000, 1, 1⟩)
        = .notImplemented ∧
      Duration.rsub (Duration.make 0 0 0 0 0 0 0 (1/2) 0) (.pdate ⟨2000, 1, 1⟩)
        = .valueError "fractional years or months not supported for date calculations") :=
  ⟨by with_unfolding_all decide,
    fractional_calendar_add_vs_rsub (Duration.make 0 0 0 0 0 0 0 (1/2) 0) ⟨2000, 1, 1⟩
      (by with_unfolding_all decide)⟩

/-- Claim C10: adding a Duration to an operand of any unsupported type
returns Python `None` (the function's final `return None`), not the
`NotImplemented` sentinel, so operator-dispatch fallback never runs and the
caller silently receives `None`. -/
theorem duration_add_unsupported_returns_none (d : Duration) :
    Duration.add d .other = .pyNone ∧ AddResult.pyNone ≠ AddResult.notImplemented :=
  ⟨rfl, by simp⟩

/-- Claim C1: the source `parse_time`, applied to `"23:20:50.123Z"` starting
from the module's empty cache, raises `AttributeError` (because
`build_time_regexps` returns the pattern strings instead of the compiled
patterns and `str` has no `match` attribute) instead of returning the time
`23:20:50.123000` UTC. -/
theorem parse_time_extended_complete_example_crashes :
    (parse_time "23:20:50.123Z" TIME_REGEX_CACHE).2
      = TimeResult.attributeError "str" "match" :=
  rfl

/-- Claim C2: the source `parse_time`, applied to the unmatched input
`"notatime"` starting from the module's empty cache, raises `AttributeError`
before any matching is attempted; it never reaches the `ISO8601Error` raise
that would name the offending string. -/
theorem parse_time_malformed_input_crashes :
    (parse_time "notatime" TIME_REGEX_CACHE).2 = TimeResult.attributeError "str" "match" ∧
    ∀ message : String,
      (parse_time "notatime" TIME_REGEX_CACHE).2 ≠ TimeResult.iso8601Error message := by
  refine ⟨rfl, ?_⟩
  intro message h
  rw [show (parse_time "notatime" TIME_REGEX_CACHE).2
      = TimeResult.attributeError "str" "match" from rfl] at h
  exact TimeResult.noConfusion h

/-- Claim C9: invoking the cache-build operation twice leaves the cache in
the same state — same size and same pattern list — as invoking it once, and
returns the same value: a populated cache is cleared and rebuilt, never
appended to. -/
theorem build_time_regexps_idempotent (cache : List CompiledRegex) :
    (build_time_regexps (build_time_regexps cache).1).1 = (build_time_regexps cache).1 ∧
    (build_time_regexps (build_time_regexps cache).1).1.length
      = (build_time_regexps cache).1.length ∧
    (build_time_regexps (build_time_regexps cache).1).2 = (build_time_regexps cache).2 := by
  cases cache <;> exact ⟨rfl, rfl, rfl⟩

end Isodate
